import Mathlib

/-
Verification of the WCDB connection-management core (AbstractHandle.cpp,
CheckpointConfig.hpp, HandleStatement.hpp) against its natural-language
specification.

The embedding is a shallow one: the mutable `AbstractHandle` object becomes an
explicit state record (`HandleState`), each C++ member function becomes a Lean
function from state to (result x state), and the external SQLite engine is
modelled by explicit outcome parameters (`ExecOutcome`, `StepOutcome`) plus the
engine-owned observables kept inside the state (autocommit flag, last result
code, schema).  An auxiliary `execTrace` field records every statement the
handle hands to the engine, so that theorems can speak about which SQL was
issued (e.g. that a compensating ROLLBACK TO SAVEPOINT really happens).
-/

namespace WCDB

/-! ## SQLite result codes used by this core -/

def SQLITE_OK : Int := 0
def SQLITE_ERROR : Int := 1
def SQLITE_BUSY : Int := 5
def SQLITE_MISUSE : Int := 21

/-! ## Error records and severity (Error.hpp, as used by AbstractHandle) -/

/-- Severity of a classified error: `Error::Level::Error` or
`Error::Level::Ignore`. -/
inductive Level where
  | Error
  | Ignore
deriving DecidableEq

/-- One error record (`WCDB::Error`): result code, optional extended code,
severity, engine message and the offending SQL context.  (The per-connection
"Path" info set once in `setPath` is constant and elided.) -/
structure ErrorRecord where
  code : Int
  extendedCode : Option Int
  level : Level
  message : Option String
  sql : String
deriving DecidableEq

/-! ## Statements the handle hands to the engine -/

/-- The statements `AbstractHandle` itself builds and executes.  WINQ statement
builders are out of scope; only the statement's identity matters here. -/
inductive Stmt where
  | beginImmediate
  | commit
  | rollback
  | savepoint (name : String)
  | release (name : String)
  | rollbackToSavepoint (name : String)
deriving DecidableEq

/-- Rendering of a statement to its SQL text (`getDescription()` of the WINQ
builder), used as the "SQL" info of error records. -/
def Stmt.description : Stmt → String
  | .beginImmediate => "BEGIN IMMEDIATE"
  | .commit => "COMMIT"
  | .rollback => "ROLLBACK"
  | .savepoint n => "SAVEPOINT " ++ n
  | .release n => "RELEASE " ++ n
  | .rollbackToSavepoint n => "ROLLBACK TO " ++ n

/-- Outcome of a single engine call (`sqlite3_exec` / `sqlite3_prepare_v2`):
success, or a failing result code together with the extended code and message
the engine would report. -/
inductive ExecOutcome where
  | ok
  | fail (rc : Int) (ext : Int) (msg : Option String)
deriving DecidableEq

/-! ## Connection state (`AbstractHandle` members plus the engine model) -/

/-- The state of one connection.  Fields up to `willCheckpointVeto` are the
C++ object's members; `inTransaction`, `lastResultCode` and `tables` model the
engine-owned observables this core reads; `notified` is the process-wide
`Notifier` sink; `execTrace` is a ghost log of issued statements. -/
structure HandleState where
  /-- `m_handle != nullptr` -/
  opened : Bool
  /-- `m_nestedLevel` -/
  nestedLevel : Nat
  /-- `m_codeToBeIgnored` (`SQLITE_OK` when no suppression is active) -/
  codeToBeIgnored : Int
  /-- `m_error` -/
  m_error : ErrorRecord
  /-- statement pool: the `isPrepared` flag of each pooled `HandleStatement` -/
  statements : List Bool
  /-- minimal registry model: the will-checkpoint entries, as (order, name) -/
  willCheckpointVeto : List (Int × String)
  /-- engine: `sqlite3_get_autocommit(...) == 0` -/
  inTransaction : Bool
  /-- engine: `sqlite3_errcode(...)` -/
  lastResultCode : Int
  /-- engine: the set of table names in the schema -/
  tables : List String
  /-- process-wide sink: every record passed to `Notifier::shared()->notify` -/
  notified : List ErrorRecord
  /-- ghost: statements issued to the engine, in order -/
  execTrace : List Stmt
deriving DecidableEq

/-! ## Error classifier (`AbstractHandle::error`, `setupAndNotifyError`,
`markErrorAsIgnorable`, `markErrorAsUnignorable`) -/

/-- The record built by `setupAndNotifyError`: code and (except for misuse)
extended code, severity from the ignorable mask, engine message, SQL info. -/
def setupErrorRecord (mask : Int) (e : ErrorRecord) (rc ext : Int)
    (msg : Option String) (sql : String) : ErrorRecord :=
  { e with
    code := rc
    extendedCode := if rc = SQLITE_MISUSE then none else some ext
    level := if 0 ≤ mask ∧ rc ≠ mask then Level.Error else Level.Ignore
    message := msg
    sql := sql }

/-- `AbstractHandle::error(rc, sql)`: non-ignorable failures update `m_error`,
notify the sink and report `false`; ignorable ones set up a copy, still notify,
and report `true`.  `ext`/`msg` are the engine-reported extended code and
message. -/
def error (st : HandleState) (rc ext : Int) (msg : Option String)
    (sql : String) : Bool × HandleState :=
  if 0 ≤ st.codeToBeIgnored ∧ rc ≠ st.codeToBeIgnored then
    (false,
      { st with
        m_error := setupErrorRecord st.codeToBeIgnored st.m_error rc ext msg sql
        notified := st.notified ++ [setupErrorRecord st.codeToBeIgnored st.m_error rc ext msg sql] })
  else
    (true,
      { st with
        notified := st.notified ++ [setupErrorRecord st.codeToBeIgnored st.m_error rc ext msg sql] })

/-- `AbstractHandle::markErrorAsIgnorable(codeToBeIgnored)` -/
def markErrorAsIgnorable (st : HandleState) (codeToBeIgnored : Int) : HandleState :=
  { st with codeToBeIgnored := codeToBeIgnored }

/-- `AbstractHandle::markErrorAsUnignorable()` -/
def markErrorAsUnignorable (st : HandleState) : HandleState :=
  { st with codeToBeIgnored := SQLITE_OK }

/-! ## Raw execution (`AbstractHandle::execute`) -/

/-- Engine-side state effect of successfully executing a statement: `BEGIN`
opens the real transaction, `COMMIT`/`ROLLBACK` close it; savepoint statements
leave autocommit unchanged (they act inside the open transaction). -/
def applyStmtEffect (s : Stmt) (st : HandleState) : HandleState :=
  match s with
  | .beginImmediate => { st with inTransaction := true }
  | .commit => { st with inTransaction := false }
  | .rollback => { st with inTransaction := false }
  | .savepoint _ => st
  | .release _ => st
  | .rollbackToSavepoint _ => st

/-- `AbstractHandle::execute(sql)`: hand the statement to the engine; on
success return `true`, on failure classify via `error`.  The engine outcome is
the explicit parameter `r`. -/
def execute (st : HandleState) (s : Stmt) (r : ExecOutcome) : Bool × HandleState :=
  match r with
  | .ok =>
      (true, applyStmtEffect s
        { st with execTrace := st.execTrace ++ [s], lastResultCode := SQLITE_OK })
  | .fail rc ext msg =>
      error { st with execTrace := st.execTrace ++ [s], lastResultCode := rc }
        rc ext msg s.description

/-! ## Transactions (`AbstractHandle`, "Transaction" section) -/

/-- Name of the savepoint for nesting level `n`:
`savepointPrefix() + std::to_string(n)`. -/
def savepointName (n : Nat) : String := "WCDBSavepoint_" ++ toString n

/-- `AbstractHandle::beginTransaction()` -/
def beginTransaction (st : HandleState) (r : ExecOutcome) : Bool × HandleState :=
  execute st .beginImmediate r

/-- `AbstractHandle::beginNestedTransaction()`: outside a transaction start the
real one; inside, pre-increment the level and issue `SAVEPOINT` named with the
incremented level. -/
def beginNestedTransaction (st : HandleState) (r : ExecOutcome) : Bool × HandleState :=
  if st.inTransaction = false then
    beginTransaction st r
  else
    execute { st with nestedLevel := st.nestedLevel + 1 }
      (.savepoint (savepointName (st.nestedLevel + 1))) r

/-- `AbstractHandle::commitOrRollbackTransaction()`: zero the level, `COMMIT`;
on failure mark everything ignorable, `ROLLBACK` (result discarded), clear the
mask and report failure. -/
def commitOrRollbackTransaction (st : HandleState) (r₁ r₂ : ExecOutcome) :
    Bool × HandleState :=
  match execute { st with nestedLevel := 0 } .commit r₁ with
  | (true, st1) => (true, st1)
  | (false, st1) =>
      (false, markErrorAsUnignorable
        (execute (markErrorAsIgnorable st1 (-1)) .rollback r₂).2)

/-- `AbstractHandle::commitOrRollbackNestedTransaction()`: at level 0 delegate
to the real commit; otherwise post-decrement the level (the savepoint name uses
the old level) and `RELEASE`; on failure mark ignorable, `ROLLBACK TO` that
savepoint, clear the mask and report failure. -/
def commitOrRollbackNestedTransaction (st : HandleState) (r₁ r₂ : ExecOutcome) :
    Bool × HandleState :=
  if st.nestedLevel = 0 then
    commitOrRollbackTransaction st r₁ r₂
  else
    match execute { st with nestedLevel := st.nestedLevel - 1 }
        (.release (savepointName st.nestedLevel)) r₁ with
    | (true, st1) => (true, st1)
    | (false, st1) =>
        (false, markErrorAsUnignorable
          (execute (markErrorAsIgnorable st1 (-1))
            (.rollbackToSavepoint (savepointName st.nestedLevel)) r₂).2)

/-- `AbstractHandle::rollbackTransaction()`: zero the level and `ROLLBACK` with
all errors marked ignorable. -/
def rollbackTransaction (st : HandleState) (r : ExecOutcome) : HandleState :=
  markErrorAsUnignorable
    (execute (markErrorAsIgnorable { st with nestedLevel := 0 } (-1)) .rollback r).2

/-- `AbstractHandle::rollbackNestedTransaction()`: at level 0 the real
rollback; otherwise post-decrement and `ROLLBACK TO` the savepoint of the old
level, ignoring errors. -/
def rollbackNestedTransaction (st : HandleState) (r : ExecOutcome) : HandleState :=
  if st.nestedLevel = 0 then
    rollbackTransaction st r
  else
    markErrorAsUnignorable
      (execute (markErrorAsIgnorable { st with nestedLevel := st.nestedLevel - 1 } (-1))
        (.rollbackToSavepoint (savepointName st.nestedLevel)) r).2

/-! ## Prepared statements and meta queries (`tableExists`, `getColumns`,
`getValues`).  `HandleStatement.cpp` is not part of this file set (only its
header is), so prepare/step behaviour is modelled from the spec. -/

/-- Modelled from the spec: `HandleStatement::prepare` (implementation absent
from the file set; only `HandleStatement.hpp` declares it).  Per the spec the
probe "observes whether it prepared successfully" and failures are classified
through the connection's Error Classifier: preparation reports whether the
statement compiled, and a failing engine outcome is pushed through `error`. -/
def prepareStatement (st : HandleState) (sql : String) (r : ExecOutcome) :
    Bool × HandleState :=
  match r with
  | .ok => (true, { st with lastResultCode := SQLITE_OK })
  | .fail rc ext msg =>
      (false, (error { st with lastResultCode := rc } rc ext msg sql).2)

/-- SQL text of the existence probe built by `tableExists`:
`StatementSelect().select(1).from(table).limit(0)`. -/
def probeSQL (table : String) : String := "SELECT 1 FROM " ++ table ++ " LIMIT 0"

/-- Modelled from the spec: the engine's outcome for preparing the existence
probe is determined by the schema — compiling `SELECT 1 FROM t LIMIT 0`
succeeds exactly when `t` is in the schema, and fails with `SQLITE_ERROR`
("no such table") otherwise. -/
def probeOutcome (st : HandleState) (table : String) : ExecOutcome :=
  if table ∈ st.tables then ExecOutcome.ok
  else ExecOutcome.fail SQLITE_ERROR SQLITE_ERROR (some "no such table")

/-- `AbstractHandle::tableExists(table)`: mark `SQLITE_ERROR` ignorable,
prepare the probe, step and finalize it when prepared, unmark, and return
`(result or lastResultCode == SQLITE_ERROR, result)`.  Stepping the `LIMIT 0`
probe completes immediately, so `result` is exactly whether it prepared
(modelled from the spec: `step()` reports success on `SQLITE_DONE`).  The
`getStatement`/`returnStatement` pool bookkeeping nets out (the slot is removed
again on return) and is elided. -/
def tableExists (st : HandleState) (table : String) : (Bool × Bool) × HandleState :=
  match prepareStatement (markErrorAsIgnorable st SQLITE_ERROR) (probeSQL table)
      (probeOutcome st table) with
  | (prepared, st1) =>
      let st2 := markErrorAsUnignorable st1
      ((prepared || (st2.lastResultCode == SQLITE_ERROR), prepared), st2)

/-- Outcome of one `step(done)` call of a prepared statement: a row carrying
the text at the queried column, completion, or an engine failure. -/
inductive StepOutcome where
  | row (value : String)
  | done
  | fail (rc : Int) (ext : Int) (msg : Option String)
deriving DecidableEq

/-- Set insertion for the collected values (`std::set<String>::emplace`). -/
def insertValue (values : List String) (v : String) : List String :=
  if v ∈ values then values else values ++ [v]

/-- The `while (handleStatement->step(done) && !done)` loop of `getValues`:
rows are collected, `done` ends the loop with success, a failing step is
classified through `error` and ends it with `done` still false.  (An exhausted
oracle also counts as an aborted loop.) -/
def runSteps (st : HandleState) (sql : String) (steps : List StepOutcome)
    (values : List String) : Bool × List String × HandleState :=
  match steps with
  | [] => (false, values, st)
  | .row v :: rest => runSteps st sql rest (insertValue values v)
  | .done :: _ => (true, values, st)
  | .fail rc ext msg :: _ =>
      (false, values, (error { st with lastResultCode := rc } rc ext msg sql).2)

/-- `AbstractHandle::getValues(statement, index)`: prepare, loop `step(done)`
collecting the text at `index`, finalize; if `done` never became true, clear
the collected values; return `(done, values)`.  The prepared statement's row
stream is the explicit oracle `prep`/`steps`; the `index` argument only selects
which column the oracle's row values denote. -/
def getValues (st : HandleState) (prep : ExecOutcome) (steps : List StepOutcome)
    (index : Nat) (sql : String) : (Bool × List String) × HandleState :=
  match prepareStatement st sql prep with
  | (true, st1) =>
      match runSteps st1 sql steps [] with
      | (done, values, st2) => ((done, if done then values else []), st2)
  | (false, st1) =>
      ((false, []), st1)

/-- SQL text of the introspection probe built by `getColumns`:
`StatementPragma().pragma(Pragma::tableInfo()).schema(schema).with(table)`
(the schema qualifier is immaterial here). -/
def tableInfoSQL (table : String) : String := "PRAGMA table_info(" ++ table ++ ")"

/-- `AbstractHandle::getColumns(schema, table)`: build the table-info pragma
and delegate to `getValues` at column index 1. -/
def getColumns (st : HandleState) (prep : ExecOutcome) (steps : List StepOutcome)
    (table : String) : (Bool × List String) × HandleState :=
  getValues st prep steps 1 (tableInfoSQL table)

/-! ## Close (`AbstractHandle::close`, `finalizeStatements`) -/

/-- `AbstractHandle::finalizeStatements()`: force-finalize every pooled
statement still prepared (the remedial assert fires per prepared statement). -/
def finalizeStatements (st : HandleState) : HandleState :=
  { st with statements := st.statements.map (fun _ => false) }

/-- `AbstractHandle::close()`: on an opened handle, finalize statements,
remediate an unpaired transaction (zero the level and force a rollback), purge
the registry, install the "close" will-checkpoint veto at minimal order, close
the engine handle and purge again; on a closed handle, do nothing.  `r` is the
engine outcome of the forced rollback, if one happens. -/
def close (st : HandleState) (r : ExecOutcome) : HandleState :=
  if st.opened then
    let st1 := finalizeStatements st
    let st2 :=
      if st1.nestedLevel = 0 ∧ st1.inTransaction = false then st1
      else rollbackTransaction { st1 with nestedLevel := 0 } r
    let st3 := { st2 with willCheckpointVeto := [] }
    let st4 := { st3 with willCheckpointVeto := [((-(2 ^ 31) : Int), "close")] }
    let st5 := { st4 with opened := false, inTransaction := false }
    { st5 with willCheckpointVeto := [] }
  else st

/-! ## Checkpoint policy (`CheckpointConfig`) -/

namespace CheckpointConfig

/-- `CheckpointConfig::framesThresholdForCritical` -/
def framesThresholdForCritical : Int := 100

/-- `CheckpointConfig::delayForCritical` (the double `1.0`, exactly `1`). -/
def delayForCritical : ℚ := 1

/-- `CheckpointConfig::delayForNonCritical` (the double `10.0`, exactly `10`). -/
def delayForNonCritical : ℚ := 10

/-- Per-path page tally held by the shared `CheckpointQueue`, plus the ghost
log of scheduling requests `(path, delay)` this policy issued. -/
structure QueueState where
  frames : String → Int
  scheduled : List (String × ℚ)

/-- Modelled from the spec: `CheckpointConfig::onCommitted(path, pages)` (its
implementation file is absent from the file set; the header declares it and
fixes the three constants).  Per the spec it accumulates `pages` into the
per-path counter and requests scheduling with the short delay once the
accumulated count reaches the critical threshold, the long delay otherwise. -/
def onCommitted (q : QueueState) (path : String) (pages : Int) : QueueState :=
  let total := q.frames path + pages
  { frames := fun p => if p = path then total else q.frames p
    scheduled := q.scheduled ++
      [(path, if framesThresholdForCritical ≤ total then delayForCritical
              else delayForNonCritical)] }

/-- A sequence of committed notifications for one path. -/
def runCommitted (q : QueueState) (path : String) (pagesList : List Int) : QueueState :=
  pagesList.foldl (fun q p => onCommitted q path p) q

end CheckpointConfig

/-! ## Transaction-operation sequences (for the nesting claims) -/

/-- One call in a begin/commit-or-rollback/rollback sequence, carrying the
engine outcomes the call may consume. -/
inductive TxnOp where
  | begin (r : ExecOutcome)
  | commitOrRollback (r₁ r₂ : ExecOutcome)
  | rollback (r : ExecOutcome)
deriving DecidableEq

/-- Whether the operation is a `beginNestedTransaction` call. -/
def TxnOp.isBegin : TxnOp → Bool
  | .begin _ => true
  | _ => false

/-- Run one transaction operation on the state. -/
def runTxnOp (st : HandleState) (op : TxnOp) : HandleState :=
  match op with
  | .begin r => (beginNestedTransaction st r).2
  | .commitOrRollback r₁ r₂ => (commitOrRollbackNestedTransaction st r₁ r₂).2
  | .rollback r => rollbackNestedTransaction st r

/-- Run a sequence of transaction operations. -/
def runTxnOps (st : HandleState) (ops : List TxnOp) : HandleState :=
  ops.foldl runTxnOp st

/-! ## Concrete states for witnesses -/

/-- An inert error record; its initial contents are immaterial (overwritten by
`setupAndNotifyError` before any use). -/
def blankError : ErrorRecord :=
  { code := SQLITE_OK, extendedCode := none, level := Level.Ignore,
    message := none, sql := "" }

/-- A freshly opened connection, as the constructor plus `open()` leave it:
depth 0, no suppression, autocommit on. -/
def openedHandle : HandleState :=
  { opened := true, nestedLevel := 0, codeToBeIgnored := SQLITE_OK,
    m_error := blankError, statements := [], willCheckpointVeto := [],
    inTransaction := false, lastResultCode := SQLITE_OK, tables := [],
    notified := [], execTrace := [] }

/-- An opened connection two savepoints deep inside a real transaction. -/
def nestedHandle : HandleState :=
  { openedHandle with nestedLevel := 2, inTransaction := true }

/-- An opened connection on which `markErrorAsIgnorable(-1)` was called. -/
def negMaskHandle : HandleState := { openedHandle with codeToBeIgnored := -1 }

/-- An opened connection whose schema holds the single table `"t"`. -/
def schemaHandle : HandleState := { openedHandle with tables := ["t"] }

/-- An opened connection one level deep whose caller has marked `SQLITE_BUSY`
ignorable before invoking a transaction operation. -/
def busyMaskedHandle : HandleState :=
  { openedHandle with
    nestedLevel := 1, inTransaction := true, codeToBeIgnored := SQLITE_BUSY }

/-! ## Frame lemmas: which fields each operation leaves untouched -/

lemma error_snd_nestedLevel (st : HandleState) (rc ext : Int) (msg : Option String)
    (sql : String) : (error st rc ext msg sql).2.nestedLevel = st.nestedLevel := by
  unfold error; split <;> rfl

lemma error_snd_inTransaction (st : HandleState) (rc ext : Int) (msg : Option String)
    (sql : String) : (error st rc ext msg sql).2.inTransaction = st.inTransaction := by
  unfold error; split <;> rfl

lemma error_snd_codeToBeIgnored (st : HandleState) (rc ext : Int) (msg : Option String)
    (sql : String) : (error st rc ext msg sql).2.codeToBeIgnored = st.codeToBeIgnored := by
  unfold error; split <;> rfl

lemma error_snd_statements (st : HandleState) (rc ext : Int) (msg : Option String)
    (sql : String) : (error st rc ext msg sql).2.statements = st.statements := by
  unfold error; split <;> rfl

lemma error_snd_execTrace (st : HandleState) (rc ext : Int) (msg : Option String)
    (sql : String) : (error st rc ext msg sql).2.execTrace = st.execTrace := by
  unfold error; split <;> rfl

lemma error_snd_notified (st : HandleState) (rc ext : Int) (msg : Option String)
    (sql : String) : (error st rc ext msg sql).2.notified =
      st.notified ++ [setupErrorRecord st.codeToBeIgnored st.m_error rc ext msg sql] := by
  unfold error; split <;> rfl

lemma error_snd_lastResultCode (st : HandleState) (rc ext : Int) (msg : Option String)
    (sql : String) : (error st rc ext msg sql).2.lastResultCode = st.lastResultCode := by
  unfold error; split <;> rfl

lemma prepareStatement_snd_codeToBeIgnored (st : HandleState) (sql : String)
    (r : ExecOutcome) :
    (prepareStatement st sql r).2.codeToBeIgnored = st.codeToBeIgnored := by
  cases r <;> simp [prepareStatement, error_snd_codeToBeIgnored]

lemma runSteps_codeToBeIgnored (st : HandleState) (sql : String)
    (steps : List StepOutcome) (values : List String) :
    (runSteps st sql steps values).2.2.codeToBeIgnored = st.codeToBeIgnored := by
  induction steps generalizing st values with
  | nil => rfl
  | cons step rest ih =>
      cases step with
      | row v => exact ih st (insertValue values v)
      | done => rfl
      | fail rc ext msg => simpa [runSteps] using
          error_snd_codeToBeIgnored { st with lastResultCode := rc } rc ext msg sql

lemma getValues_codeToBeIgnored (st : HandleState) (prep : ExecOutcome)
    (steps : List StepOutcome) (index : Nat) (sql : String) :
    (getValues st prep steps index sql).2.codeToBeIgnored = st.codeToBeIgnored := by
  unfold getValues
  split
  · next st1 heq =>
      split
      · next done values st2 heq2 =>
          have h1 : st1.codeToBeIgnored = st.codeToBeIgnored := by
            have := prepareStatement_snd_codeToBeIgnored st sql prep
            rw [heq] at this; simpa using this
          have h2 : st2.codeToBeIgnored = st1.codeToBeIgnored := by
            have := runSteps_codeToBeIgnored st1 sql steps []
            rw [heq2] at this; simpa using this
          simpa using h2.trans h1
  · next st1 heq =>
      have h1 : st1.codeToBeIgnored = st.codeToBeIgnored := by
        have := prepareStatement_snd_codeToBeIgnored st sql prep
        rw [heq] at this; simpa using this
      simpa using h1

lemma applyStmtEffect_nestedLevel (s : Stmt) (st : HandleState) :
    (applyStmtEffect s st).nestedLevel = st.nestedLevel := by cases s <;> rfl

lemma applyStmtEffect_codeToBeIgnored (s : Stmt) (st : HandleState) :
    (applyStmtEffect s st).codeToBeIgnored = st.codeToBeIgnored := by cases s <;> rfl

lemma applyStmtEffect_statements (s : Stmt) (st : HandleState) :
    (applyStmtEffect s st).statements = st.statements := by cases s <;> rfl

lemma applyStmtEffect_execTrace (s : Stmt) (st : HandleState) :
    (applyStmtEffect s st).execTrace = st.execTrace := by cases s <;> rfl

lemma execute_snd_nestedLevel (st : HandleState) (s : Stmt) (r : ExecOutcome) :
    (execute st s r).2.nestedLevel = st.nestedLevel := by
  cases r <;> simp [execute, applyStmtEffect_nestedLevel, error_snd_nestedLevel]

lemma execute_snd_codeToBeIgnored (st : HandleState) (s : Stmt) (r : ExecOutcome) :
    (execute st s r).2.codeToBeIgnored = st.codeToBeIgnored := by
  cases r <;> simp [execute, applyStmtEffect_codeToBeIgnored, error_snd_codeToBeIgnored]

lemma execute_snd_statements (st : HandleState) (s : Stmt) (r : ExecOutcome) :
    (execute st s r).2.statements = st.statements := by
  cases r <;> simp [execute, applyStmtEffect_statements, error_snd_statements]

lemma execute_snd_execTrace (st : HandleState) (s : Stmt) (r : ExecOutcome) :
    (execute st s r).2.execTrace = st.execTrace ++ [s] := by
  cases r <;> simp [execute, applyStmtEffect_execTrace, error_snd_execTrace]

lemma execute_savepoint_inTransaction (st : HandleState) (n : String) (r : ExecOutcome) :
    (execute st (.savepoint n) r).2.inTransaction = st.inTransaction := by
  cases r <;> simp [execute, applyStmtEffect, error_snd_inTransaction]

lemma execute_release_inTransaction (st : HandleState) (n : String) (r : ExecOutcome) :
    (execute st (.release n) r).2.inTransaction = st.inTransaction := by
  cases r <;> simp [execute, applyStmtEffect, error_snd_inTransaction]

lemma execute_rollbackTo_inTransaction (st : HandleState) (n : String) (r : ExecOutcome) :
    (execute st (.rollbackToSavepoint n) r).2.inTransaction = st.inTransaction := by
  cases r <;> simp [execute, applyStmtEffect, error_snd_inTransaction]

/-! ## Level and trace lemmas for the transaction operations -/

lemma commitOrRollbackTransaction_nestedLevel (st : HandleState) (r₁ r₂ : ExecOutcome) :
    (commitOrRollbackTransaction st r₁ r₂).2.nestedLevel = 0 := by
  unfold commitOrRollbackTransaction
  rcases hE : execute { st with nestedLevel := 0 } .commit r₁ with ⟨b, st1⟩
  have h1 : st1.nestedLevel = 0 := by
    have := execute_snd_nestedLevel { st with nestedLevel := 0 } .commit r₁
    rw [hE] at this; simpa using this
  cases b <;> simp [markErrorAsUnignorable, markErrorAsIgnorable,
    execute_snd_nestedLevel, h1]

lemma rollbackTransaction_nestedLevel (st : HandleState) (r : ExecOutcome) :
    (rollbackTransaction st r).nestedLevel = 0 := by
  simp [rollbackTransaction, markErrorAsUnignorable, markErrorAsIgnorable,
    execute_snd_nestedLevel]

lemma commitOrRollbackNestedTransaction_nestedLevel (st : HandleState)
    (r₁ r₂ : ExecOutcome) :
    (commitOrRollbackNestedTransaction st r₁ r₂).2.nestedLevel = st.nestedLevel - 1 := by
  unfold commitOrRollbackNestedTransaction
  by_cases h0 : st.nestedLevel = 0
  · simp [h0, commitOrRollbackTransaction_nestedLevel]
  · simp only [h0, if_false]
    rcases hE : execute { st with nestedLevel := st.nestedLevel - 1 }
      (.release (savepointName st.nestedLevel)) r₁ with ⟨b, st1⟩
    have h1 : st1.nestedLevel = st.nestedLevel - 1 := by
      have := execute_snd_nestedLevel { st with nestedLevel := st.nestedLevel - 1 }
        (.release (savepointName st.nestedLevel)) r₁
      rw [hE] at this; simpa using this
    cases b <;> simp [markErrorAsUnignorable, markErrorAsIgnorable,
      execute_snd_nestedLevel, h1]

lemma rollbackNestedTransaction_nestedLevel (st : HandleState) (r : ExecOutcome) :
    (rollbackNestedTransaction st r).nestedLevel = st.nestedLevel - 1 := by
  unfold rollbackNestedTransaction
  by_cases h0 : st.nestedLevel = 0
  · simp [h0, rollbackTransaction_nestedLevel]
  · simp [h0, markErrorAsUnignorable, markErrorAsIgnorable, execute_snd_nestedLevel]

lemma commitOrRollbackNestedTransaction_inTransaction (st : HandleState)
    (r₁ r₂ : ExecOutcome) (h0 : st.nestedLevel ≠ 0) :
    (commitOrRollbackNestedTransaction st r₁ r₂).2.inTransaction = st.inTransaction := by
  unfold commitOrRollbackNestedTransaction
  simp only [h0, if_false]
  rcases hE : execute { st with nestedLevel := st.nestedLevel - 1 }
    (.release (savepointName st.nestedLevel)) r₁ with ⟨b, st1⟩
  have h1 : st1.inTransaction = st.inTransaction := by
    have := execute_release_inTransaction { st with nestedLevel := st.nestedLevel - 1 }
      (savepointName st.nestedLevel) r₁
    rw [hE] at this; simpa using this
  cases b <;> simp [markErrorAsUnignorable, markErrorAsIgnorable,
    execute_rollbackTo_inTransaction, h1]

lemma rollbackNestedTransaction_inTransaction (st : HandleState) (r : ExecOutcome)
    (h0 : st.nestedLevel ≠ 0) :
    (rollbackNestedTransaction st r).inTransaction = st.inTransaction := by
  unfold rollbackNestedTransaction
  simp [h0, markErrorAsUnignorable, markErrorAsIgnorable, execute_rollbackTo_inTransaction]

lemma beginNestedTransaction_nestedLevel (st : HandleState) (r : ExecOutcome) :
    (beginNestedTransaction st r).2.nestedLevel =
      if st.inTransaction then st.nestedLevel + 1 else st.nestedLevel := by
  unfold beginNestedTransaction beginTransaction
  by_cases hT : st.inTransaction = false
  · simp [hT, execute_snd_nestedLevel]
  · have hT' : st.inTransaction = true := by revert hT; cases st.inTransaction <;> simp
    simp [hT', execute_snd_nestedLevel]

lemma beginNestedTransaction_inTransaction_of_inTxn (st : HandleState) (r : ExecOutcome)
    (hT : st.inTransaction = true) :
    (beginNestedTransaction st r).2.inTransaction = true := by
  unfold beginNestedTransaction
  rw [hT]
  simp [execute_savepoint_inTransaction]

/-! ## The depth invariant: outside a transaction the nesting level is 0 -/

/-- Invariant tying the engine's autocommit state to the nesting counter:
`isInTransaction()` is false only at depth 0. -/
def depthInv (st : HandleState) : Prop :=
  st.inTransaction = false → st.nestedLevel = 0

lemma runTxnOp_depthInv (st : HandleState) (op : TxnOp) (h : depthInv st) :
    depthInv (runTxnOp st op) := by
  cases op with
  | begin r =>
      by_cases hT : st.inTransaction = false
      · intro _
        show (beginNestedTransaction st r).2.nestedLevel = 0
        rw [beginNestedTransaction_nestedLevel, hT]
        simpa using h hT
      · have hT' : st.inTransaction = true := by revert hT; cases st.inTransaction <;> simp
        intro hF
        exact absurd ((beginNestedTransaction_inTransaction_of_inTxn st r hT').symm.trans hF)
          (by simp)
  | commitOrRollback r₁ r₂ =>
      by_cases h0 : st.nestedLevel = 0
      · intro _
        show (commitOrRollbackNestedTransaction st r₁ r₂).2.nestedLevel = 0
        rw [commitOrRollbackNestedTransaction_nestedLevel, h0]
      · have hT : st.inTransaction = true := by
          cases hB : st.inTransaction
          · exact absurd (h hB) h0
          · rfl
        intro hF
        simp only [runTxnOp] at hF
        rw [commitOrRollbackNestedTransaction_inTransaction st r₁ r₂ h0] at hF
        exact absurd (hT.symm.trans hF) (by simp)
  | rollback r =>
      by_cases h0 : st.nestedLevel = 0
      · intro _
        show (rollbackNestedTransaction st r).nestedLevel = 0
        rw [rollbackNestedTransaction_nestedLevel, h0]
      · have hT : st.inTransaction = true := by
          cases hB : st.inTransaction
          · exact absurd (h hB) h0
          · rfl
        intro hF
        simp only [runTxnOp] at hF
        rw [rollbackNestedTransaction_inTransaction st r h0] at hF
        exact absurd (hT.symm.trans hF) (by simp)

lemma runTxnOps_depthInv (st : HandleState) (ops : List TxnOp) (h : depthInv st) :
    depthInv (runTxnOps st ops) := by
  induction ops generalizing st with
  | nil => exact h
  | cons op rest ih => exact ih (runTxnOp st op) (runTxnOp_depthInv st op h)

/-! ## Depth arithmetic over sequences -/

lemma runTxnOp_nestedLevel_le (st : HandleState) (op : TxnOp) :
    (runTxnOp st op).nestedLevel ≤ st.nestedLevel + 1 := by
  cases op with
  | begin r =>
      show (beginNestedTransaction st r).2.nestedLevel ≤ st.nestedLevel + 1
      rw [beginNestedTransaction_nestedLevel]
      split <;> omega
  | commitOrRollback r₁ r₂ =>
      show (commitOrRollbackNestedTransaction st r₁ r₂).2.nestedLevel ≤ st.nestedLevel + 1
      rw [commitOrRollbackNestedTransaction_nestedLevel]; omega
  | rollback r =>
      show (rollbackNestedTransaction st r).nestedLevel ≤ st.nestedLevel + 1
      rw [rollbackNestedTransaction_nestedLevel]; omega

lemma runTxnOps_nestedLevel_le (st : HandleState) (ops : List TxnOp) :
    (runTxnOps st ops).nestedLevel ≤ st.nestedLevel + ops.length := by
  induction ops generalizing st with
  | nil => simp [runTxnOps]
  | cons op rest ih =>
      have h1 := runTxnOp_nestedLevel_le st op
      have h2 := ih (runTxnOp st op)
      simp only [runTxnOps, List.foldl_cons] at h2 ⊢
      calc (rest.foldl runTxnOp (runTxnOp st op)).nestedLevel
          ≤ (runTxnOp st op).nestedLevel + rest.length := h2
        _ ≤ st.nestedLevel + (op :: rest).length := by simp [List.length_cons]; omega

lemma runTxnOp_closer_nestedLevel (st : HandleState) (op : TxnOp)
    (hc : op.isBegin = false) : (runTxnOp st op).nestedLevel = st.nestedLevel - 1 := by
  cases op with
  | begin r => simp [TxnOp.isBegin] at hc
  | commitOrRollback r₁ r₂ =>
      exact commitOrRollbackNestedTransaction_nestedLevel st r₁ r₂
  | rollback r => exact rollbackNestedTransaction_nestedLevel st r

lemma runTxnOps_closers_nestedLevel (st : HandleState) (ops : List TxnOp)
    (hc : ∀ op ∈ ops, op.isBegin = false) :
    (runTxnOps st ops).nestedLevel = st.nestedLevel - ops.length := by
  induction ops generalizing st with
  | nil => simp [runTxnOps]
  | cons op rest ih =>
      have h1 := runTxnOp_closer_nestedLevel st op (hc op (by simp))
      have h2 := ih (runTxnOp st op) (fun o ho => hc o (by simp [ho]))
      simp only [runTxnOps, List.foldl_cons] at h2 ⊢
      rw [h2, h1, List.length_cons]
      omega

lemma execute_fail_fst (st : HandleState) (s : Stmt) (rc ext : Int)
    (msg : Option String) (h : 0 ≤ st.codeToBeIgnored ∧ rc ≠ st.codeToBeIgnored) :
    (execute st s (.fail rc ext msg)).1 = false := by
  simp only [execute, error]
  split
  · rfl
  · next hneg => exact absurd (by simpa using h) hneg

/-! ## Claim theorems -/

/-- C1: for every N ≥ 0, starting from depth 0 outside any transaction, a
sequence of N `beginNestedTransaction` calls followed by N
`commitOrRollbackNestedTransaction` or `rollbackNestedTransaction` calls
returns the nested-transaction depth counter to 0 — whatever the engine
outcomes of each call — and along the whole run `isInTransaction()` is false
only when the depth counter is 0. -/
theorem C1_depth_returns_to_zero (st : HandleState) (begins closers : List TxnOp)
    (h0 : st.nestedLevel = 0) (h1 : st.inTransaction = false)
    (hb : ∀ op ∈ begins, op.isBegin = true)
    (hc : ∀ op ∈ closers, op.isBegin = false)
    (hlen : begins.length = closers.length) :
    (runTxnOps st (begins ++ closers)).nestedLevel = 0 ∧
    ∀ l₁ l₂ : List TxnOp, begins ++ closers = l₁ ++ l₂ →
      (runTxnOps st l₁).inTransaction = false → (runTxnOps st l₁).nestedLevel = 0 := by
  have _hb := hb
  have _h1 := h1
  constructor
  · have hsplit : runTxnOps st (begins ++ closers)
        = runTxnOps (runTxnOps st begins) closers := by
      simp [runTxnOps, List.foldl_append]
    rw [hsplit, runTxnOps_closers_nestedLevel _ _ hc]
    have hle := runTxnOps_nestedLevel_le st begins
    rw [h0] at hle
    omega
  · intro l₁ l₂ _hsp
    exact runTxnOps_depthInv st l₁ (fun _ => h0)

/-- Witness for C1 at N = 2 with a mix of commit and rollback closers. -/
theorem C1_depth_returns_to_zero_witness :
    (runTxnOps openedHandle
      ([TxnOp.begin .ok, TxnOp.begin .ok] ++
        [TxnOp.commitOrRollback .ok .ok, TxnOp.rollback .ok])).nestedLevel = 0 :=
  (C1_depth_returns_to_zero openedHandle
    [TxnOp.begin .ok, TxnOp.begin .ok]
    [TxnOp.commitOrRollback .ok .ok, TxnOp.rollback .ok]
    rfl rfl (by decide) (by decide) rfl).1

/-- C2: for every `commitOrRollbackNestedTransaction` call at depth > 0 whose
savepoint release fails (a failing engine outcome the classifier does not
ignore), the call issues `ROLLBACK TO` that savepoint, returns `false`, and
the depth counter is decremented by exactly one. -/
theorem C2_failed_release_decrements (st : HandleState) (rc ext : Int)
    (msg : Option String) (r₂ : ExecOutcome)
    (hlvl : st.nestedLevel ≠ 0)
    (hfail : 0 ≤ st.codeToBeIgnored ∧ rc ≠ st.codeToBeIgnored) :
    (commitOrRollbackNestedTransaction st (.fail rc ext msg) r₂).1 = false ∧
    (commitOrRollbackNestedTransaction st (.fail rc ext msg) r₂).2.nestedLevel
      = st.nestedLevel - 1 ∧
    Stmt.rollbackToSavepoint (savepointName st.nestedLevel) ∈
      (commitOrRollbackNestedTransaction st (.fail rc ext msg) r₂).2.execTrace := by
  unfold commitOrRollbackNestedTransaction
  rw [if_neg hlvl]
  split
  · next st1 heq =>
      exfalso
      have hf := execute_fail_fst { st with nestedLevel := st.nestedLevel - 1 }
        (.release (savepointName st.nestedLevel)) rc ext msg (by simpa using hfail)
      rw [heq] at hf
      exact absurd hf (by simp)
  · next st1 heq =>
      have hlv : st1.nestedLevel = st.nestedLevel - 1 := by
        have := execute_snd_nestedLevel { st with nestedLevel := st.nestedLevel - 1 }
          (.release (savepointName st.nestedLevel)) (.fail rc ext msg)
        rw [heq] at this; simpa using this
      refine ⟨rfl, ?_, ?_⟩
      · simp [markErrorAsUnignorable, markErrorAsIgnorable, execute_snd_nestedLevel, hlv]
      · simp [markErrorAsUnignorable, markErrorAsIgnorable, execute_snd_execTrace]

/-- Witness for C2: depth 2, release fails with `SQLITE_ERROR`, no mask set. -/
theorem C2_failed_release_decrements_witness :
    (commitOrRollbackNestedTransaction nestedHandle
        (.fail SQLITE_ERROR SQLITE_ERROR none) .ok).1 = false ∧
    (commitOrRollbackNestedTransaction nestedHandle
        (.fail SQLITE_ERROR SQLITE_ERROR none) .ok).2.nestedLevel
      = nestedHandle.nestedLevel - 1 ∧
    Stmt.rollbackToSavepoint (savepointName nestedHandle.nestedLevel) ∈
      (commitOrRollbackNestedTransaction nestedHandle
        (.fail SQLITE_ERROR SQLITE_ERROR none) .ok).2.execTrace :=
  C2_failed_release_decrements nestedHandle SQLITE_ERROR SQLITE_ERROR none .ok
    (by decide) (by decide)

/-- C3 counterexample: the claim predicts that whenever a failing code differs
from the masked code the call reports failure; but after `markErrorAsIgnorable(-1)`
the mask is negative and `error` reports soft success for `SQLITE_ERROR`, which
differs from the masked code `-1`. -/
theorem C3_counterexample :
    ¬ (∀ (st : HandleState) (rc ext : Int) (msg : Option String) (sql : String),
        rc ≠ SQLITE_OK →
        (st.codeToBeIgnored = SQLITE_OK ∨ rc ≠ st.codeToBeIgnored) →
        (error st rc ext msg sql).1 = false) :=
  fun h =>
    absurd (h negMaskHandle SQLITE_ERROR SQLITE_ERROR none "" (by decide)
      (Or.inr (by decide))) (by decide)

/-- C3 (amended): for every failing code `rc`, `error(rc, sql)` always pushes
the populated record to the process-wide sink; if the mask is unset, or the
masked code is nonnegative and `rc` differs from it, the record is
Error-severity and the call returns failure; if `rc` matches the masked code,
or the masked code is negative, the record is Ignore-severity and the call
returns soft success. -/
theorem C3_amended_error_classification (st : HandleState) (rc ext : Int)
    (msg : Option String) (sql : String) (hrc : rc ≠ SQLITE_OK) :
    ((error st rc ext msg sql).2.notified =
      st.notified ++ [setupErrorRecord st.codeToBeIgnored st.m_error rc ext msg sql]) ∧
    (st.codeToBeIgnored = SQLITE_OK ∨ (0 ≤ st.codeToBeIgnored ∧ rc ≠ st.codeToBeIgnored) →
      (error st rc ext msg sql).1 = false ∧
      (setupErrorRecord st.codeToBeIgnored st.m_error rc ext msg sql).level = Level.Error) ∧
    (rc = st.codeToBeIgnored ∨ st.codeToBeIgnored < 0 →
      (error st rc ext msg sql).1 = true ∧
      (setupErrorRecord st.codeToBeIgnored st.m_error rc ext msg sql).level = Level.Ignore) := by
  refine ⟨error_snd_notified st rc ext msg sql, ?_, ?_⟩
  · intro hcase
    have hcond : 0 ≤ st.codeToBeIgnored ∧ rc ≠ st.codeToBeIgnored := by
      rcases hcase with h | h
      · exact ⟨by rw [h]; decide, by rw [h]; exact hrc⟩
      · exact h
    exact ⟨by simp [error, hcond], by simp [setupErrorRecord, hcond]⟩
  · intro hcase
    have hcond : ¬(0 ≤ st.codeToBeIgnored ∧ rc ≠ st.codeToBeIgnored) := by
      rcases hcase with h | h
      · exact fun hx => hx.2 h
      · exact fun hx => by omega
    exact ⟨by simp [error, hcond], by simp [setupErrorRecord, hcond]⟩

/-- Witness for C3 (amended): an unset mask classifies `SQLITE_ERROR` as a hard
failure; a negative mask classifies it as ignored soft success. -/
theorem C3_amended_error_classification_witness :
    ((error openedHandle SQLITE_ERROR SQLITE_ERROR none "SELECT 1").1 = false ∧
      (setupErrorRecord openedHandle.codeToBeIgnored openedHandle.m_error SQLITE_ERROR
        SQLITE_ERROR none "SELECT 1").level = Level.Error) ∧
    ((error negMaskHandle SQLITE_ERROR SQLITE_ERROR none "SELECT 1").1 = true ∧
      (setupErrorRecord negMaskHandle.codeToBeIgnored negMaskHandle.m_error SQLITE_ERROR
        SQLITE_ERROR none "SELECT 1").level = Level.Ignore) :=
  ⟨(C3_amended_error_classification openedHandle SQLITE_ERROR SQLITE_ERROR none
      "SELECT 1" (by decide)).2.1 (Or.inl rfl),
   (C3_amended_error_classification negMaskHandle SQLITE_ERROR SQLITE_ERROR none
      "SELECT 1" (by decide)).2.2 (Or.inr (by decide))⟩

/-- C4: `tableExists` on a name absent from the schema returns `(true, false)`
and only ever adds Ignore-severity records to the sink; on a present name it
returns `(true, true)`. -/
theorem C4_tableExists (st : HandleState) (table : String) :
    (table ∈ st.tables → (tableExists st table).1 = (true, true)) ∧
    (table ∉ st.tables →
      (tableExists st table).1 = (true, false) ∧
      ∀ e ∈ (tableExists st table).2.notified, e ∈ st.notified ∨ e.level = Level.Ignore) := by
  by_cases hm : table ∈ st.tables
  · refine ⟨fun _ => ?_, fun hn => absurd hm hn⟩
    simp [tableExists, probeOutcome, hm, prepareStatement, markErrorAsIgnorable,
      markErrorAsUnignorable]
  · refine ⟨fun hmem => absurd hmem hm, fun _ => ?_⟩
    constructor
    · simp [tableExists, probeOutcome, hm, prepareStatement, markErrorAsIgnorable,
        markErrorAsUnignorable, error, SQLITE_ERROR]
    · intro e he
      simp only [tableExists, probeOutcome, hm, if_neg, ite_false, prepareStatement,
        markErrorAsIgnorable, markErrorAsUnignorable, error, setupErrorRecord] at he
      simp at he
      rcases he with he | he
      · exact Or.inl he
      · right
        rw [he]

/-- Witness for C4: schema containing only `"t"`. -/
theorem C4_tableExists_witness :
    (tableExists schemaHandle "t").1 = (true, true) ∧
    (tableExists schemaHandle "u").1 = (true, false) :=
  ⟨(C4_tableExists schemaHandle "t").1 (by decide),
   ((C4_tableExists schemaHandle "u").2 (by decide)).1⟩

/-- C5 counterexample: a caller that set the mask to `SQLITE_BUSY` before a
failing nested commit does not get that mask back — the failure path clears it
to `SQLITE_OK`. -/
theorem C5_counterexample :
    (commitOrRollbackNestedTransaction busyMaskedHandle
        (.fail SQLITE_ERROR SQLITE_ERROR none) .ok).2.codeToBeIgnored
      ≠ busyMaskedHandle.codeToBeIgnored := by decide

/-- C5 (amended): when `commitOrRollbackNestedTransaction` or
`commitOrRollbackTransaction` takes its failure path, the ignorable mask after
the call is `SQLITE_OK` (cleared) regardless of the caller's prior mask; it
equals the prior mask only when that mask was already unset. -/
theorem C5_amended_mask_cleared (st : HandleState) (rc ext : Int) (msg : Option String)
    (r₂ : ExecOutcome) (hfail : 0 ≤ st.codeToBeIgnored ∧ rc ≠ st.codeToBeIgnored) :
    (commitOrRollbackNestedTransaction st (.fail rc ext msg) r₂).2.codeToBeIgnored
      = SQLITE_OK ∧
    (commitOrRollbackTransaction st (.fail rc ext msg) r₂).2.codeToBeIgnored
      = SQLITE_OK := by
  have hreal : ∀ s : HandleState, 0 ≤ s.codeToBeIgnored ∧ rc ≠ s.codeToBeIgnored →
      (commitOrRollbackTransaction s (.fail rc ext msg) r₂).2.codeToBeIgnored
        = SQLITE_OK := by
    intro s hs
    unfold commitOrRollbackTransaction
    split
    · next st1 heq =>
        exfalso
        have hf := execute_fail_fst { s with nestedLevel := 0 } .commit rc ext msg
          (by simpa using hs)
        rw [heq] at hf
        exact absurd hf (by simp)
    · next st1 heq => simp [markErrorAsUnignorable]
  constructor
  · unfold commitOrRollbackNestedTransaction
    by_cases h0 : st.nestedLevel = 0
    · rw [if_pos h0]
      exact hreal st hfail
    · rw [if_neg h0]
      split
      · next st1 heq =>
          exfalso
          have hf := execute_fail_fst { st with nestedLevel := st.nestedLevel - 1 }
            (.release (savepointName st.nestedLevel)) rc ext msg (by simpa using hfail)
          rw [heq] at hf
          exact absurd hf (by simp)
      · next st1 heq => simp [markErrorAsUnignorable]
  · exact hreal st hfail

/-- Witness for C5 (amended): prior mask `SQLITE_BUSY`, failing commit. -/
theorem C5_amended_mask_cleared_witness :
    (commitOrRollbackNestedTransaction busyMaskedHandle
        (.fail SQLITE_ERROR SQLITE_ERROR none) .ok).2.codeToBeIgnored = SQLITE_OK ∧
    (commitOrRollbackTransaction busyMaskedHandle
        (.fail SQLITE_ERROR SQLITE_ERROR none) .ok).2.codeToBeIgnored = SQLITE_OK :=
  C5_amended_mask_cleared busyMaskedHandle SQLITE_ERROR SQLITE_ERROR none .ok (by decide)

/-- C6 counterexample: a `getColumns` probe whose preparation fails with the
table/column-not-found code `SQLITE_ERROR`, under no active mask, pushes a
record that is not Ignore-severity — so the probe was not protected by
marking that code ignorable, contrary to the claim. -/
theorem C6_counterexample :
    ¬ (∀ e ∈ (getColumns openedHandle
          (.fail SQLITE_ERROR SQLITE_ERROR none) [] "t").2.notified,
        e.level = Level.Ignore) := by decide

/-- C6 (amended): `getColumns` does not touch the ignorable-code mask at all —
the mask after the call equals the mask before, for every probe outcome — and
a failing probe is classified against the caller's existing mask: with no mask
set, a table/column-not-found preparation failure is recorded at Error
severity, unlike the probe of `tableExists`. -/
theorem C6_amended_no_masking (st : HandleState) (steps : List StepOutcome)
    (table : String) :
    (∀ prep : ExecOutcome,
      (getColumns st prep steps table).2.codeToBeIgnored = st.codeToBeIgnored) ∧
    (∀ rc ext : Int, ∀ msg : Option String,
      st.codeToBeIgnored = SQLITE_OK → rc ≠ SQLITE_OK →
      ((getColumns st (.fail rc ext msg) steps table).2.notified.map ErrorRecord.level)
        = st.notified.map ErrorRecord.level ++ [Level.Error]) := by
  constructor
  · intro prep
    exact getValues_codeToBeIgnored st prep steps 1 (tableInfoSQL table)
  · intro rc ext msg hmask hrc
    have hred : getColumns st (.fail rc ext msg) steps table
        = ((false, []),
           (error { st with lastResultCode := rc } rc ext msg (tableInfoSQL table)).2) := rfl
    rw [hred, error_snd_notified]
    have hcond : (0 ≤ ({ st with lastResultCode := rc } : HandleState).codeToBeIgnored
        ∧ rc ≠ ({ st with lastResultCode := rc } : HandleState).codeToBeIgnored) := by
      simp only []
      constructor
      · simp [hmask, SQLITE_OK]
      · simpa [hmask] using hrc
    simp [setupErrorRecord, hcond]

/-- Witness for C6 (amended): unset mask, probe fails with `SQLITE_ERROR`. -/
theorem C6_amended_no_masking_witness :
    (getColumns openedHandle ExecOutcome.ok [] "t").2.codeToBeIgnored
      = openedHandle.codeToBeIgnored ∧
    ((getColumns openedHandle (.fail SQLITE_ERROR SQLITE_ERROR none) []
        "t").2.notified.map ErrorRecord.level)
      = openedHandle.notified.map ErrorRecord.level ++ [Level.Error] :=
  ⟨(C6_amended_no_masking openedHandle [] "t").1 ExecOutcome.ok,
   (C6_amended_no_masking openedHandle [] "t").2 SQLITE_ERROR SQLITE_ERROR none
     rfl (by decide)⟩

lemma rollbackTransaction_statements (st : HandleState) (r : ExecOutcome) :
    (rollbackTransaction st r).statements = st.statements := by
  simp [rollbackTransaction, markErrorAsUnignorable, markErrorAsIgnorable,
    execute_snd_statements]

lemma rollbackTransaction_execTrace (st : HandleState) (r : ExecOutcome) :
    (rollbackTransaction st r).execTrace = st.execTrace ++ [Stmt.rollback] := by
  simp [rollbackTransaction, markErrorAsUnignorable, markErrorAsIgnorable,
    execute_snd_execTrace]

lemma runCommitted_nonCritical (path : String) (ps : List Int) :
    ∀ q : CheckpointConfig.QueueState, (∀ p ∈ ps, 0 ≤ p) →
      q.frames path + ps.sum < 100 →
      (CheckpointConfig.runCommitted q path ps).scheduled =
        q.scheduled ++ ps.map (fun _ => (path, CheckpointConfig.delayForNonCritical)) := by
  induction ps with
  | nil => intro q _ _; simp [CheckpointConfig.runCommitted]
  | cons p rest ih =>
      intro q hp hlt
      rw [List.sum_cons] at hlt
      have hrest : 0 ≤ rest.sum :=
        List.sum_nonneg (fun x hx => hp x (List.mem_cons_of_mem _ hx))
      have hcond : ¬ (CheckpointConfig.framesThresholdForCritical ≤ q.frames path + p) := by
        simp only [CheckpointConfig.framesThresholdForCritical]
        omega
      have hstep : CheckpointConfig.runCommitted q path (p :: rest)
          = CheckpointConfig.runCommitted (CheckpointConfig.onCommitted q path p)
              path rest := by
        simp [CheckpointConfig.runCommitted]
      rw [hstep, ih (CheckpointConfig.onCommitted q path p)
        (fun x hx => hp x (List.mem_cons_of_mem _ hx))
        (by simp [CheckpointConfig.onCommitted]; omega)]
      simp [CheckpointConfig.onCommitted, hcond]

/-- C7: a committed notification accumulating fewer than 100 pages for the
path schedules with the long delay 10.0; reaching or exceeding 100 accumulated
pages schedules with the short delay 1.0; and a whole run of sub-threshold
commits keeps re-scheduling at the long delay only. -/
theorem C7_checkpoint_policy (q : CheckpointConfig.QueueState) (path : String)
    (pages : Int) (ps : List Int) :
    (q.frames path + pages < 100 →
      (CheckpointConfig.onCommitted q path pages).scheduled =
        q.scheduled ++ [(path, CheckpointConfig.delayForNonCritical)]) ∧
    (100 ≤ q.frames path + pages →
      (CheckpointConfig.onCommitted q path pages).scheduled =
        q.scheduled ++ [(path, CheckpointConfig.delayForCritical)]) ∧
    ((∀ p ∈ ps, 0 ≤ p) → q.frames path + ps.sum < 100 →
      (CheckpointConfig.runCommitted q path ps).scheduled =
        q.scheduled ++ ps.map (fun _ => (path, CheckpointConfig.delayForNonCritical))) := by
  refine ⟨?_, ?_, fun hp hlt => runCommitted_nonCritical path ps q hp hlt⟩
  · intro h
    have hcond : ¬ (CheckpointConfig.framesThresholdForCritical ≤ q.frames path + pages) := by
      simp only [CheckpointConfig.framesThresholdForCritical]; omega
    simp [CheckpointConfig.onCommitted, hcond]
  · intro h
    have hcond : CheckpointConfig.framesThresholdForCritical ≤ q.frames path + pages := by
      simp only [CheckpointConfig.framesThresholdForCritical]; omega
    simp [CheckpointConfig.onCommitted, hcond]

/-- A queue with no accumulated frames and no pending requests. -/
def emptyQueue : CheckpointConfig.QueueState :=
  { frames := fun _ => 0, scheduled := [] }

/-- Witness for C7: 50 pages schedule at 10.0, 150 pages at 1.0, and three
30-page commits all schedule at 10.0. -/
theorem C7_checkpoint_policy_witness :
    ((CheckpointConfig.onCommitted emptyQueue "db" 50).scheduled =
      emptyQueue.scheduled ++ [("db", CheckpointConfig.delayForNonCritical)]) ∧
    ((CheckpointConfig.onCommitted emptyQueue "db" 150).scheduled =
      emptyQueue.scheduled ++ [("db", CheckpointConfig.delayForCritical)]) ∧
    ((CheckpointConfig.runCommitted emptyQueue "db" [30, 30, 30]).scheduled =
      emptyQueue.scheduled ++
        [30, 30, 30].map (fun _ => ("db", CheckpointConfig.delayForNonCritical))) :=
  ⟨(C7_checkpoint_policy emptyQueue "db" 50 []).1 (by decide),
   (C7_checkpoint_policy emptyQueue "db" 150 []).2.1 (by decide),
   (C7_checkpoint_policy emptyQueue "db" 0 [30, 30, 30]).2.2 (by decide) (by decide)⟩

/-- C8: `close()` always completes and leaves the connection closed: on an
already-closed connection it is a no-op; on an opened one the handle ends
null, the depth counter ends 0, every pooled statement ends finalized, and an
unpaired transaction (nonzero depth or open transaction) is force-rolled-back
(a `ROLLBACK` is issued). -/
theorem C8_close_total (st : HandleState) (r : ExecOutcome) :
    (st.opened = false → close st r = st) ∧
    (st.opened = true →
      (close st r).opened = false ∧
      (close st r).nestedLevel = 0 ∧
      (∀ b ∈ (close st r).statements, b = false) ∧
      ((st.nestedLevel ≠ 0 ∨ st.inTransaction = true) →
        Stmt.rollback ∈ (close st r).execTrace)) := by
  constructor
  · intro hcl
    simp [close, hcl]
  · intro hop
    refine ⟨?_, ?_, ?_, ?_⟩
    · simp only [close, hop, if_true]
    · simp only [close, hop, if_true]
      split
      · next hcc => exact hcc.1
      · next => exact rollbackTransaction_nestedLevel _ r
    · simp only [close, hop, if_true]
      split
      · next => simp [finalizeStatements]
      · next =>
          intro b hb
          rw [rollbackTransaction_statements] at hb
          simp [finalizeStatements] at hb
          exact hb.2
    · intro hdirty
      simp only [close, hop, if_true]
      split
      · next hcc =>
          exfalso
          have h1 : st.nestedLevel = 0 := hcc.1
          have h2 : st.inTransaction = false := hcc.2
          rcases hdirty with hd | hd
          · exact hd h1
          · rw [h2] at hd; exact absurd hd (by simp)
      · next =>
          rw [rollbackTransaction_execTrace]
          simp [finalizeStatements]

/-- A connection already closed. -/
def closedHandle : HandleState := { openedHandle with opened := false }

/-- An opened connection with a still-prepared statement and an unpaired
transaction. -/
def dirtyHandle : HandleState :=
  { openedHandle with
    nestedLevel := 1, inTransaction := true, statements := [true, false] }

/-- Witness for C8: closing an already-closed connection is a no-op; closing a
dirty one finalizes, rolls back and zeroes the depth. -/
theorem C8_close_total_witness :
    (close closedHandle .ok = closedHandle) ∧
    ((close dirtyHandle .ok).opened = false ∧
      (close dirtyHandle .ok).nestedLevel = 0 ∧
      (∀ b ∈ (close dirtyHandle .ok).statements, b = false) ∧
      Stmt.rollback ∈ (close dirtyHandle .ok).execTrace) :=
  ⟨(C8_close_total closedHandle .ok).1 rfl,
    ⟨((C8_close_total dirtyHandle .ok).2 rfl).1,
     ((C8_close_total dirtyHandle .ok).2 rfl).2.1,
     ((C8_close_total dirtyHandle .ok).2 rfl).2.2.1,
     ((C8_close_total dirtyHandle .ok).2 rfl).2.2.2 (Or.inl (by decide))⟩⟩

/-- C9: once a negative code has been marked ignorable — as the
rollback-compensation paths do via `markErrorAsIgnorable(-1)` — `error(rc, sql)`
reports soft success with an Ignore-severity record for every failing `rc`,
not only for the masked code, and still notifies the sink. -/
theorem C9_negative_mask_ignores_all (st : HandleState) (c rc ext : Int)
    (msg : Option String) (sql : String) (hc : c < 0) (hrc : rc ≠ SQLITE_OK) :
    (error (markErrorAsIgnorable st c) rc ext msg sql).1 = true ∧
    (error (markErrorAsIgnorable st c) rc ext msg sql).2.notified =
      st.notified ++ [setupErrorRecord c st.m_error rc ext msg sql] ∧
    (setupErrorRecord c st.m_error rc ext msg sql).level = Level.Ignore := by
  have _hrc := hrc
  have hcond : ¬ (0 ≤ c ∧ rc ≠ c) := fun hx => by omega
  refine ⟨?_, ?_, ?_⟩
  · simp [error, markErrorAsIgnorable, hcond]
  · rw [error_snd_notified]
    simp [markErrorAsIgnorable]
  · simp [setupErrorRecord, hcond]

/-- Witness for C9: mask `-1`, failing code `SQLITE_ERROR`. -/
theorem C9_negative_mask_ignores_all_witness :
    (error (markErrorAsIgnorable openedHandle (-1)) SQLITE_ERROR SQLITE_ERROR none
      "ROLLBACK").1 = true ∧
    (error (markErrorAsIgnorable openedHandle (-1)) SQLITE_ERROR SQLITE_ERROR none
      "ROLLBACK").2.notified =
      openedHandle.notified ++
        [setupErrorRecord (-1) openedHandle.m_error SQLITE_ERROR SQLITE_ERROR none
          "ROLLBACK"] ∧
    (setupErrorRecord (-1) openedHandle.m_error SQLITE_ERROR SQLITE_ERROR none
      "ROLLBACK").level = Level.Ignore :=
  C9_negative_mask_ignores_all openedHandle (-1) SQLITE_ERROR SQLITE_ERROR none
    "ROLLBACK" (by decide) (by decide)

/-- C10: whenever `getValues` — and therefore `getColumns` — reports failure,
the returned value set is empty: rows read before the failing step are
discarded, never returned partially. -/
theorem C10_failure_returns_empty (st : HandleState) (prep : ExecOutcome)
    (steps : List StepOutcome) (index : Nat) (sql table : String) :
    ((getValues st prep steps index sql).1.1 = false →
      (getValues st prep steps index sql).1.2 = []) ∧
    ((getColumns st prep steps table).1.1 = false →
      (getColumns st prep steps table).1.2 = []) := by
  have key : ∀ (i : Nat) (q : String),
      (getValues st prep steps i q).1.1 = false →
      (getValues st prep steps i q).1.2 = [] := by
    intro i q h
    rcases hP : prepareStatement st q prep with ⟨pb, st1⟩
    cases pb
    · have hred : getValues st prep steps i q = ((false, []), st1) := by
        unfold getValues; rw [hP]
      rw [hred]
    · rcases hS : runSteps st1 q steps [] with ⟨done, values, st2⟩
      have hred : getValues st prep steps i q
          = ((done, if done then values else []), st2) := by
        unfold getValues
        rw [hP]
        exact congrArg
          (fun t : Bool × List String × HandleState =>
            ((t.1, if t.1 then t.2.1 else []), t.2.2)) hS
      rw [hred] at h ⊢
      simp at h
      simp [h]
  exact ⟨key index sql, key 1 (tableInfoSQL table)⟩

/-- Witness for C10: a mid-stream step failure discards the row already read;
a failing `getColumns` probe returns the empty set. -/
theorem C10_failure_returns_empty_witness :
    (getValues openedHandle .ok [.row "a", .fail SQLITE_ERROR SQLITE_ERROR none]
      0 "q").1.2 = [] ∧
    (getColumns openedHandle (.fail SQLITE_ERROR SQLITE_ERROR none) [] "t").1.2 = [] :=
  ⟨(C10_failure_returns_empty openedHandle .ok
      [.row "a", .fail SQLITE_ERROR SQLITE_ERROR none] 0 "q" "t").1 (by decide),
   (C10_failure_returns_empty openedHandle (.fail SQLITE_ERROR SQLITE_ERROR none)
      [] 1 "q" "t").2 (by decide)⟩

end WCDB
